import Mathlib

/-!
Verification development for the TravelBuddy itinerary planner
(`src/student_ai_travel_planner.py`).  The itinerary-synthesis core
(POI sampling, greedy day packing, budget estimation, geocode-gated
orchestration, remote-generator adapter, and generator dispatch) is
shallowly embedded below.  Floating-point hour arithmetic is embedded
as exact rational arithmetic (every duration literal and every value
the packer computes from them is exactly representable, so the two
agree); `datetime.date` is embedded as an ordinal day count (an `Int`),
on which `timedelta(days=k)` is addition by `k`; the pseudo-random
source consumed by `random.random` / `random.choice` is passed in
explicitly as a stream of draws; the network collaborators (geopy
geocoding, `requests.post` + `response.json()`) and the Python
runtime primitives `json.loads` / `str` are passed in as explicit
oracle arguments, since they are external to this repository.
-/

namespace TravelPlanner

/-- A point of interest exactly as built by `sample_pois_for_city`
(source lines 80-87): name, jittered latitude/longitude, category,
qualitative price label, and duration in hours. -/
structure POI where
  name : String
  lat : ℚ
  lon : ℚ
  category : String
  price : String
  duration_hours : ℚ
deriving DecidableEq, Repr

/-- Placeholder POI used only as the default value of `List.getD`;
every `getD` below is applied at an index shown to be in bounds. -/
def dPOI : POI :=
  { name := "", lat := 0, lon := 0, category := "", price := "", duration_hours := 0 }

/-- One sampling step's worth of pseudo-random draws: the two
`random.random()` floats used for the latitude/longitude jitter and
the three `random.choice` selections (category, price label,
duration), the latter embedded as arbitrary naturals reduced modulo
the length of the list being chosen from. -/
structure Draw where
  r1 : ℚ
  r2 : ℚ
  catIdx : Nat
  priceIdx : Nat
  durIdx : Nat

/-- The default category vocabulary of `sample_pois_for_city`
(source line 73), used when `interests` is empty. -/
def defaultCategories : List String := ["cafe", "museum", "park", "market", "historic"]

/-- The price labels drawn from at source line 79. -/
def priceLabels : List String := ["free", "low", "medium"]

/-- The duration values drawn from at source line 86. -/
def durationChoices : List ℚ := [1/2, 1, 3/2, 2, 3]

/-- `random.choice xs` with the random outcome supplied as a natural
number `k`, reduced modulo the length of `xs`; total via a default
that is never hit on the nonempty lists it is applied to. -/
def pyChoice {α : Type} (xs : List α) (d : α) (k : Nat) : α :=
  xs.getD (k % xs.length) d

/-- Character-level worker for `pyTitle`: the boolean records whether
the previous character was alphabetic. -/
def pyTitleAux : Bool → List Char → List Char
  | _, [] => []
  | prev, c :: cs =>
    (if c.isAlpha then (if prev then c.toLower else c.toUpper) else c) :: pyTitleAux c.isAlpha cs

/-- Python's `str.title()` restricted to the ASCII categories this
program uses: the first alphabetic character of each alphabetic run is
upper-cased and the rest lower-cased. -/
def pyTitle (s : String) : String := ⟨pyTitleAux false s.data⟩

/-- `sample_pois_for_city` (source lines 70-88): for each `i < n`,
jitter the center by `(random.random() - 0.5) * 0.08` in each
coordinate, choose a category from `interests` (or the default
vocabulary when `interests` is empty), name the POI
`f"{cat.title()} Spot {i+1}"`, and choose a price label and a
duration. -/
def sample_pois_for_city (city_latlon : ℚ × ℚ) (interests : List String) (n : Nat)
    (draws : Nat → Draw) : List POI :=
  let categories := if interests.isEmpty then defaultCategories else interests
  (List.range n).map fun i =>
    let d := draws i
    let cat := pyChoice categories "" d.catIdx
    { name := pyTitle cat ++ " Spot " ++ toString (i + 1)
      lat := city_latlon.1 + (d.r1 - 1/2) * (8/100)
      lon := city_latlon.2 + (d.r2 - 1/2) * (8/100)
      category := cat
      price := pyChoice priceLabels "" d.priceIdx
      duration_hours := pyChoice durationChoices 0 d.durIdx }

/-- The price table lookup `cost_map.get(p["price"], 100)` of
`simple_budget_estimate` (source line 91-92). -/
def cost_map (price : String) : Nat :=
  if price = "free" then 0
  else if price = "low" then 200
  else if price = "medium" then 600
  else 100

/-- `simple_budget_estimate` (source lines 90-93): sum of the price
table over every POI it is given. -/
def simple_budget_estimate (pois : List POI) : Nat :=
  (pois.map fun p => cost_map p.price).sum

/-- The inner `while` loop of `generate_rule_based_itinerary`
(source lines 104-111), with the cursor state rendered as the
remaining suffix of the pool: while hours remain and the pool is not
exhausted, take the POI under the cursor iff its duration fits, and
advance the cursor either way.  Returns the activities placed on this
day together with the suffix left for the next day. -/
def packDayAux : ℚ → List POI → List POI × List POI
  | _, [] => ([], [])
  | hours, p :: ps =>
    if 0 < hours then
      if p.duration_hours ≤ hours then
        ((p :: (packDayAux (hours - p.duration_hours) ps).1),
          (packDayAux (hours - p.duration_hours) ps).2)
      else
        packDayAux hours ps
    else ([], p :: ps)

/-- One element of the `itinerary` list built at source lines 112-116:
1-based day index, the day's date (embedded as an ordinal day count),
and the activities packed into that day, in packing order. -/
structure DayPlan where
  day : Nat
  date : Int
  activities : List POI
deriving DecidableEq, Repr

/-- The outer `for day in range(days)` loop of
`generate_rule_based_itinerary` (source lines 103-116): `day` is the
0-based day counter already emitted, the `Nat` argument counts the
days still to emit, and the pool suffix (the shared cursor) threads
from one day to the next without being reset. -/
def packFromAux (start_date : Int) : Nat → Nat → List POI → List DayPlan
  | _, 0, _ => []
  | day, rem + 1, pois =>
    { day := day + 1, date := start_date + (day : Int),
      activities := (packDayAux 8 pois).1 }
      :: packFromAux start_date (day + 1) rem (packDayAux 8 pois).2

/-- The whole day-packing pass of `generate_rule_based_itinerary`
(source lines 101-116), starting with cursor 0 and day 0. -/
def pack (pois : List POI) (start_date : Int) (days : Nat) : List DayPlan :=
  packFromAux start_date 0 days pois

/-- `geocode_city` (source lines 60-68) with the geopy collaborator's
outcome passed in: an exception collapses to `none`, a missing
location is `none`, and a found location is its coordinate pair. -/
def geocode_city (collab : Except String (Option (ℚ × ℚ))) : Option (ℚ × ℚ) :=
  match collab with
  | .error _ => none
  | .ok r => r

/-- Result of `generate_rule_based_itinerary`: either the error dict
of source line 98 or the full result dict of source line 118. -/
inductive GenResult where
  | error (msg : String)
  | ok (latlon : ℚ × ℚ) (itinerary : List DayPlan) (pois : List POI) (budget_est : Nat)
deriving DecidableEq, Repr

/-- `generate_rule_based_itinerary` (source lines 95-118): geocode the
destination (failure is the only error path), sample `days * 4` POIs
around the resulting coordinate, pack them greedily into `days` days,
and estimate the budget over the full sampled pool.  The `budget`
argument is accepted, as in the source, and never read. -/
def generate_rule_based_itinerary (geocoder : Except String (Option (ℚ × ℚ)))
    (draws : Nat → Draw) (destination : String) (start_date : Int) (days : Nat)
    (budget : Nat) (interests : List String) : GenResult :=
  match geocode_city geocoder with
  | none => .error ("Could not geocode \x27" ++ destination ++ "\x27. Try another city.")
  | some latlon =>
    let pois := sample_pois_for_city latlon interests (days * 4) draws
    .ok latlon (pack pois start_date days) pois (simple_budget_estimate pois)

/-- A Python value as seen by the remote-generator adapter: the JSON
decoding of the HTTP response, or a fragment of it. -/
inductive PyVal where
  | str (s : String)
  | list (xs : List PyVal)
  | dict (kvs : List (String × PyVal))
  | num (q : ℚ)

/-- The extraction expression at source line 135,
`result[0]["generated_text"] if isinstance(result, list) else str(result)`:
indexing an empty list, a missing key, or indexing a non-dict raises
(caught by the adapter's outer handler); a non-list response is
rendered with `str` (supplied as an oracle). -/
def extract_generated_text (pyStr : PyVal → String) : PyVal → Except String PyVal
  | .list [] => .error "IndexError: list index out of range"
  | .list (x :: _) =>
    match x with
    | .dict kvs =>
      match kvs.lookup "generated_text" with
      | some v => .ok v
      | none => .error "KeyError: generated_text"
    | _ => .error "TypeError: first response element is not subscriptable by string"
  | v => .ok (.str (pyStr v))

/-- The three shapes `call_huggingface_for_itinerary` can return: the
parsed JSON value, the raw text under the `"raw"` key, or the error
dict carrying the caught exception's message. -/
inductive HFResult where
  | parsed (v : PyVal)
  | raw (v : PyVal)
  | failure (msg : String)

/-- `call_huggingface_for_itinerary` (source lines 120-141).  The
combined outcome of `requests.post` and `response.json()` is passed in
as `network` (an exception there, or anywhere in the outer `try`,
becomes the error dict); `json.loads` is passed in as the oracle
`jsonLoads`, with `none` standing for a raised parse error, which the
inner handler turns into the raw-text result.  Applying `json.loads`
to a non-string extracted value also raises inside the inner `try`,
so it too degrades to the raw result. -/
def call_huggingface_for_itinerary (network : Except String PyVal)
    (jsonLoads : String → Option PyVal) (pyStr : PyVal → String) : HFResult :=
  match network with
  | .error e => .failure e
  | .ok result =>
    match extract_generated_text pyStr result with
    | .error e => .failure e
    | .ok text =>
      match text with
      | .str s =>
        match jsonLoads s with
        | some v => .parsed v
        | none => .raw (.str s)
      | v => .raw v

/-- Truthiness of an optional environment string (`os.getenv` returns
`None` when the variable is absent; an empty string is also falsy). -/
def pyTruthy : Option String → Bool
  | none => false
  | some s => !s.isEmpty

/-- Which generator a "Generate itinerary" click runs. -/
inductive GeneratorChoice where
  | remote
  | localRule
deriving DecidableEq, Repr

/-- The dispatch at source lines 178-181: `if use_hf and HF_API_KEY:`
call the remote adapter, else run the local rule-based synthesis.
`hf_api_url` is part of the configuration (source line 25) but, as in
the source, is not consulted by the condition. -/
def chooseGenerator (use_hf : Bool) (hf_api_key hf_api_url : Option String) :
    GeneratorChoice :=
  if use_hf && pyTruthy hf_api_key then .remote else .localRule

/-- Index-instrumented shadow of `packDayAux`, used only to *state*
instance-level properties: it runs the same loop over the pool paired
with its positions and additionally returns the POIs the cursor
consumed without placing (those reached while their duration exceeded
the remaining hours).  Components: (accepted, dropped, rest). -/
def packDayRec : ℚ → List (Nat × POI) → List (Nat × POI) × List (Nat × POI) × List (Nat × POI)
  | _, [] => ([], [], [])
  | hours, p :: ps =>
    if 0 < hours then
      if p.2.duration_hours ≤ hours then
        (p :: (packDayRec (hours - p.2.duration_hours) ps).1,
          (packDayRec (hours - p.2.duration_hours) ps).2.1,
          (packDayRec (hours - p.2.duration_hours) ps).2.2)
      else
        ((packDayRec hours ps).1, p :: (packDayRec hours ps).2.1, (packDayRec hours ps).2.2)
    else ([], [], p :: ps)

/-- Index-instrumented shadow of the outer day loop: per emitted day,
the (accepted, dropped) position-tagged POIs. -/
def packFromRec : Nat → List (Nat × POI) → List (List (Nat × POI) × List (Nat × POI))
  | 0, _ => []
  | rem + 1, l =>
    ((packDayRec 8 l).1, (packDayRec 8 l).2.1) :: packFromRec rem (packDayRec 8 l).2.2

/-- All position-tagged POIs scheduled anywhere in the itinerary. -/
def scheduledPairs (pois : List POI) (days : Nat) : List (Nat × POI) :=
  ((packFromRec days pois.enum).map Prod.fst).flatten

/-- All position-tagged POIs the shared cursor consumed without
placing them anywhere. -/
def droppedPairs (pois : List POI) (days : Nat) : List (Nat × POI) :=
  ((packFromRec days pois.enum).map fun r => r.2).flatten

/-- A concrete 3-hour POI, used by the scenario parts of the claims. -/
def poi3 : POI :=
  { name := "Cafe Spot 1", lat := 0, lon := 0, category := "cafe",
    price := "low", duration_hours := 3 }

/-- The 4-POI pool of durations [3,3,3,3] from the spec's Day Packer
scenario. -/
def pool4 : List POI := [poi3, poi3, poi3, poi3]

/-- The activities one day packs never exceed the hours it started
with: the loop only accepts a POI when its duration fits in the
remaining hours and then deducts it. -/
theorem packDayAux_sum_le (l : List POI) : ∀ hours : ℚ, 0 ≤ hours →
    ((packDayAux hours l).1.map POI.duration_hours).sum ≤ hours := by
  induction l with
  | nil => intro hours h; simpa [packDayAux] using h
  | cons p ps ih =>
    intro hours h
    simp only [packDayAux]
    split_ifs with h1 h2
    · simp only [List.map_cons, List.sum_cons]
      have hrec := ih (hours - p.duration_hours) (by linarith)
      linarith
    · exact ih hours h
    · simpa using h

/-- The pool splits into the segment one day's cursor consumed
followed by the suffix handed to the next day, and the day's
activities form a subsequence of the consumed segment. -/
theorem packDayAux_split (l : List POI) : ∀ hours : ℚ,
    ∃ c, l = c ++ (packDayAux hours l).2 ∧ (packDayAux hours l).1.Sublist c := by
  induction l with
  | nil => intro hours; exact ⟨[], by simp [packDayAux]⟩
  | cons p ps ih =>
    intro hours
    by_cases h1 : 0 < hours
    · by_cases h2 : p.duration_hours ≤ hours
      · obtain ⟨c, hc, hs⟩ := ih (hours - p.duration_hours)
        refine ⟨p :: c, ?_, ?_⟩
        · simp [packDayAux, h1, h2, ← hc]
        · simpa [packDayAux, h1, h2] using hs.cons₂ p
      · obtain ⟨c, hc, hs⟩ := ih hours
        refine ⟨p :: c, ?_, ?_⟩
        · simp [packDayAux, h1, h2, ← hc]
        · simpa [packDayAux, h1, h2] using hs.cons p
    · exact ⟨[], by simp [packDayAux, h1], by simp [packDayAux, h1]⟩

/-- A day packed from the empty pool has no activities. -/
theorem packDayAux_nil (hours : ℚ) : packDayAux hours [] = ([], []) := rfl

/-- Every day plan the outer loop emits keeps its activities within
8 hours. -/
theorem packFromAux_mem_sum_le : ∀ (rem day : Nat) (l : List POI) (s : Int) (dp : DayPlan),
    dp ∈ packFromAux s day rem l → (dp.activities.map POI.duration_hours).sum ≤ 8 := by
  intro rem
  induction rem with
  | zero => intro day l s dp h; simp [packFromAux] at h
  | succ n ih =>
    intro day l s dp h
    simp only [packFromAux, List.mem_cons] at h
    rcases h with h | h
    · subst h; exact packDayAux_sum_le l 8 (by norm_num)
    · exact ih (day + 1) _ s dp h

/-- The outer loop emits one day plan per remaining day. -/
theorem packFromAux_length : ∀ (rem day : Nat) (l : List POI) (s : Int),
    (packFromAux s day rem l).length = rem := by
  intro rem
  induction rem with
  | zero => intro day l s; rfl
  | succ n ih => intro day l s; simp [packFromAux, ih]

/-- The dates the outer loop emits are the start date offset by the
consecutive day counters. -/
theorem packFromAux_map_date : ∀ (rem day : Nat) (l : List POI) (s : Int),
    (packFromAux s day rem l).map DayPlan.date
      = (List.range' day rem).map (fun k : Nat => s + (k : Int)) := by
  intro rem
  induction rem with
  | zero => intro day l s; rfl
  | succ n ih =>
    intro day l s
    rw [List.range'_succ]
    simp only [packFromAux, List.map_cons, ih]

/-- Once the pool is exhausted, every later day plan has an empty
activities list. -/
theorem packFromAux_nil_empty : ∀ (rem day : Nat) (s : Int) (dp : DayPlan),
    dp ∈ packFromAux s day rem [] → dp.activities = [] := by
  intro rem
  induction rem with
  | zero => intro day s dp h; simp [packFromAux] at h
  | succ n ih =>
    intro day s dp h
    simp only [packFromAux, List.mem_cons] at h
    rcases h with h | h
    · subst h; rfl
    · exact ih (day + 1) s dp h

/-- The concatenated activities of all emitted days form a
subsequence of the pool suffix the loop started from. -/
theorem packFromAux_flatten_sublist : ∀ (rem day : Nat) (l : List POI) (s : Int),
    (((packFromAux s day rem l).map DayPlan.activities).flatten).Sublist l := by
  intro rem
  induction rem with
  | zero => intro day l s; simp [packFromAux]
  | succ n ih =>
    intro day l s
    obtain ⟨c, hc, hs⟩ := packDayAux_split l 8
    have key := hs.append (ih (day + 1) (packDayAux 8 l).2 s)
    rw [← hc] at key
    simpa only [packFromAux, List.map_cons, List.flatten_cons] using key

/-- Each element of the pool ends up in exactly one of the three
outputs of the instrumented day loop: accepted, dropped, or handed to
the next day. -/
theorem packDayRec_count (x : Nat × POI) : ∀ (l : List (Nat × POI)) (hours : ℚ),
    (packDayRec hours l).1.count x + (packDayRec hours l).2.1.count x
      + (packDayRec hours l).2.2.count x = l.count x := by
  intro l
  induction l with
  | nil => intro hours; simp [packDayRec]
  | cons p ps ih =>
    intro hours
    by_cases h1 : 0 < hours
    · by_cases h2 : p.2.duration_hours ≤ hours
      · have := ih (hours - p.2.duration_hours)
        simp only [packDayRec, if_pos h1, if_pos h2, List.count_cons]
        omega
      · have := ih hours
        simp only [packDayRec, if_pos h1, if_neg h2, List.count_cons]
        omega
    · simp only [packDayRec, if_neg h1, List.count_nil, List.count_cons]
      omega

/-- Across all days, each element of the pool is scheduled or dropped
at most as often as it occurs in the pool. -/
theorem packFromRec_count (x : Nat × POI) : ∀ (rem : Nat) (l : List (Nat × POI)),
    (((packFromRec rem l).map Prod.fst).flatten).count x
      + (((packFromRec rem l).map (fun r => r.2)).flatten).count x ≤ l.count x := by
  intro rem
  induction rem with
  | zero => intro l; simp [packFromRec]
  | succ n ih =>
    intro l
    have h1 := packDayRec_count x l 8
    have h2 := ih (packDayRec 8 l).2.2
    simp only [packFromRec, List.map_cons, List.flatten_cons, List.count_append]
    omega

/-- The source packer run on the underlying POIs agrees with the
instrumented packer run on the position-tagged POIs. -/
theorem packDayRec_agree : ∀ (l : List (Nat × POI)) (hours : ℚ),
    packDayAux hours (l.map Prod.snd)
      = ((packDayRec hours l).1.map Prod.snd, (packDayRec hours l).2.2.map Prod.snd) := by
  intro l
  induction l with
  | nil => intro hours; rfl
  | cons p ps ih =>
    intro hours
    simp only [List.map_cons, packDayAux, packDayRec]
    split_ifs with h1 h2 <;> simp [ih]

/-- Day-by-day agreement between the emitted activities and the
accepted components of the instrumented loop. -/
theorem packFromRec_agree : ∀ (rem : Nat) (l : List (Nat × POI)) (s : Int) (day : Nat),
    (packFromAux s day rem (l.map Prod.snd)).map DayPlan.activities
      = (packFromRec rem l).map (fun r => r.1.map Prod.snd) := by
  intro rem
  induction rem with
  | zero => intro l s day; rfl
  | succ n ih =>
    intro l s day
    have hd := packDayRec_agree l 8
    simp only [packFromAux, packFromRec, List.map_cons, hd, List.cons.injEq]
    exact ⟨trivial, ih (packDayRec 8 l).2.2 s (day + 1)⟩

/-- Membership in an enumerated list pins down the position and the
value. -/
theorem mem_enumFrom_spec : ∀ (l : List POI) (n : Nat) (x : Nat × POI),
    x ∈ l.enumFrom n → n ≤ x.1 ∧ x.1 - n < l.length ∧ l.getD (x.1 - n) dPOI = x.2 := by
  intro l
  induction l with
  | nil => intro n x hx; simp at hx
  | cons p ps ih =>
    intro n x hx
    rw [List.enumFrom_cons, List.mem_cons] at hx
    rcases hx with hx | hx
    · subst hx; simp
    · obtain ⟨h1, h2, h3⟩ := ih (n + 1) x hx
      have hgt : n ≤ x.1 := by omega
      have hsub : x.1 - n = (x.1 - (n + 1)) + 1 := by omega
      refine ⟨hgt, by simpa [hsub] using by omega, ?_⟩
      rw [hsub, List.getD_cons_succ]
      exact h3

/-- The enumerated pool has no duplicate entries: each position tag
occurs at most once. -/
theorem enumFrom_count_le_one : ∀ (l : List POI) (n : Nat) (x : Nat × POI),
    (l.enumFrom n).count x ≤ 1 := by
  intro l
  induction l with
  | nil => intro n x; simp
  | cons p ps ih =>
    intro n x
    rw [List.enumFrom_cons, List.count_cons]
    by_cases hx : (n, p) = x
    · have h0 : (ps.enumFrom (n + 1)).count x = 0 := by
        rw [List.count_eq_zero]
        intro hmem
        have h1 := (mem_enumFrom_spec ps (n + 1) x hmem).1
        rw [← hx] at h1
        omega
      rw [hx, h0]
      simp
    · have hne : ((n, p) == x) = false := by
        rw [beq_eq_false_iff_ne]
        exact hx
      rw [hne]
      simpa using ih (n + 1) x

/-- The budget estimate over the whole pool splits around any
in-bounds position: the POI at that position contributes its own
price-table value to the total. -/
theorem estimate_split (pois : List POI) (i : Nat) (hi : i < pois.length) :
    simple_budget_estimate pois
      = simple_budget_estimate (pois.take i) + cost_map ((pois.getD i dPOI).price)
        + simple_budget_estimate (pois.drop (i + 1)) := by
  conv_lhs => rw [← List.take_append_drop i pois, List.drop_eq_getElem_cons hi]
  rw [List.getD_eq_getElem _ _ hi]
  simp only [simple_budget_estimate, List.map_append, List.sum_append, List.map_cons,
    List.sum_cons]
  omega

/-- Claim C2: for every POI pool and every days ≥ 1, every DayPlan
produced by the Day Packer has activities whose summed duration_hours
is at most 8 hours. -/
theorem C2_daily_time_budget (pois : List POI) (start_date : Int) (days : Nat)
    (dp : DayPlan) (h : dp ∈ pack pois start_date days) :
    (dp.activities.map POI.duration_hours).sum ≤ 8 :=
  packFromAux_mem_sum_le days 0 pois start_date dp h

/-- Witness for C2 at the spec's concrete scenario pool. -/
theorem C2_daily_time_budget_witness :
    ((({ day := 1, date := 0, activities := [poi3, poi3] } : DayPlan)).activities.map
        POI.duration_hours).sum ≤ 8 :=
  C2_daily_time_budget pool4 0 1 { day := 1, date := 0, activities := [poi3, poi3] }
    (by norm_num [pack, packFromAux, packDayAux, pool4, poi3])

/-- Claim C3: for every days ≥ 1, every start date, and every pool,
the Day Packer emits exactly `days` DayPlan entries with dates
`start_date + 0, ..., start_date + (days - 1)` (hence strictly
increasing by one calendar day), and once the pool is exhausted every
later day gets an empty activities list rather than an error or a
missing entry. -/
theorem C3_day_count_and_dates (pois : List POI) (start_date : Int) (days : Nat)
    (h : 1 ≤ days) :
    (pack pois start_date days).length = days
    ∧ (pack pois start_date days).map DayPlan.date
        = (List.range days).map (fun k : Nat => start_date + (k : Int))
    ∧ ((pack pois start_date days).map DayPlan.date).Pairwise (· < ·)
    ∧ (∀ (day rem : Nat) (dp : DayPlan),
        dp ∈ packFromAux start_date day rem [] → dp.activities = []) := by
  have hdate : (pack pois start_date days).map DayPlan.date
      = (List.range days).map (fun k : Nat => start_date + (k : Int)) := by
    simp only [pack]
    rw [packFromAux_map_date days 0 pois start_date, List.range_eq_range']
  refine ⟨packFromAux_length days 0 pois start_date, hdate, ?_, ?_⟩
  · rw [hdate]
    refine List.Pairwise.map _ ?_ (List.pairwise_lt_range days)
    intro a b hab
    omega
  · intro day rem dp hdp
    exact packFromAux_nil_empty rem day start_date dp hdp

/-- Witness for C3 at the concrete scenario pool. -/
theorem C3_day_count_and_dates_witness : (pack pool4 0 1).length = 1 :=
  (C3_day_count_and_dates pool4 0 1 (by decide)).1

/-- Claim C4: the Budget Estimator maps free→0, low→200, medium→600
and any other tier to 100, returns the sum over the entire pool it is
given (0 on the empty pool), and in the Synthesizer that pool is the
full sampled pool — including POIs the Day Packer dropped — not only
the scheduled ones. -/
theorem C4_budget_estimator :
    cost_map "free" = 0 ∧ cost_map "low" = 200 ∧ cost_map "medium" = 600
    ∧ (∀ s : String, s ≠ "free" → s ≠ "low" → s ≠ "medium" → cost_map s = 100)
    ∧ simple_budget_estimate [] = 0
    ∧ (∀ pois : List POI,
        simple_budget_estimate pois = (pois.map fun p => cost_map p.price).sum)
    ∧ (∀ (geocoder : Except String (Option (ℚ × ℚ))) (draws : Nat → Draw)
        (destination : String) (start_date : Int) (days budget : Nat)
        (interests : List String) (latlon : ℚ × ℚ) (itin : List DayPlan)
        (pois : List POI) (est : Nat),
        generate_rule_based_itinerary geocoder draws destination start_date days budget
            interests = GenResult.ok latlon itin pois est →
          pois = sample_pois_for_city latlon interests (days * 4) draws
          ∧ est = simple_budget_estimate pois) := by
  refine ⟨rfl, rfl, rfl, ?_, rfl, fun _ => rfl, ?_⟩
  · intro s h1 h2 h3
    simp [cost_map, h1, h2, h3]
  · intro geocoder draws destination start_date days budget interests latlon itin pois est h
    cases hg : geocode_city geocoder with
    | none => simp [generate_rule_based_itinerary, hg] at h
    | some l =>
      simp only [generate_rule_based_itinerary, hg, GenResult.ok.injEq] at h
      obtain ⟨h1, h2, h3, h4⟩ := h
      subst h1
      subst h3
      exact ⟨rfl, h4.symm⟩

/-- Witness for C4's conditional parts at a concrete call. -/
theorem C4_budget_estimator_witness : cost_map "vip" = 100 :=
  C4_budget_estimator.2.2.2.1 "vip" (by decide) (by decide) (by decide)

/-- Claim C6: a geocoding failure (no result or an exception) makes
local synthesis return the tagged error result and construct no
itinerary; on geocoding success the full itinerary (coordinates, day
plans, pool, cost estimate) is always produced; and an error result
occurs exactly when geocoding fails, so this is the only error path. -/
theorem C6_geocode_only_error_path (geocoder : Except String (Option (ℚ × ℚ)))
    (draws : Nat → Draw) (destination : String) (start_date : Int) (days budget : Nat)
    (interests : List String) :
    (geocode_city geocoder = none →
      generate_rule_based_itinerary geocoder draws destination start_date days budget interests
        = GenResult.error
            ("Could not geocode \x27" ++ destination ++ "\x27. Try another city."))
    ∧ (∀ latlon : ℚ × ℚ, geocode_city geocoder = some latlon →
      generate_rule_based_itinerary geocoder draws destination start_date days budget interests
        = GenResult.ok latlon
            (pack (sample_pois_for_city latlon interests (days * 4) draws) start_date days)
            (sample_pois_for_city latlon interests (days * 4) draws)
            (simple_budget_estimate (sample_pois_for_city latlon interests (days * 4) draws)))
    ∧ ((∃ msg, generate_rule_based_itinerary geocoder draws destination start_date days budget
          interests = GenResult.error msg) ↔ geocode_city geocoder = none) := by
  refine ⟨?_, ?_, ?_, ?_⟩
  · intro hg
    simp [generate_rule_based_itinerary, hg]
  · intro latlon hg
    simp [generate_rule_based_itinerary, hg]
  · rintro ⟨msg, hmsg⟩
    cases hg : geocode_city geocoder with
    | none => rfl
    | some l => simp [generate_rule_based_itinerary, hg] at hmsg
  · intro hg
    exact ⟨"Could not geocode \x27" ++ destination ++ "\x27. Try another city.",
      by simp [generate_rule_based_itinerary, hg]⟩

/-- Witness for C6: geocoding finds no match for "Nowhereville", so
synthesis returns the geocode-failure result. -/
theorem C6_geocode_only_error_path_witness :
    generate_rule_based_itinerary (Except.ok none) (fun _ => ⟨0, 0, 0, 0, 0⟩)
        "Nowhereville" 0 3 3000 ["cafe"]
      = GenResult.error
          ("Could not geocode \x27" ++ "Nowhereville" ++ "\x27. Try another city.") :=
  (C6_geocode_only_error_path (Except.ok none) (fun _ => ⟨0, 0, 0, 0, 0⟩)
    "Nowhereville" 0 3 3000 ["cafe"]).1 rfl

/-- Claim C7 counterexample: with the credential set, the toggle on,
and the endpoint URL absent, the dispatch still chooses the remote
path — the absence of the URL does not force the local path as the
claim states. -/
theorem C7_url_absent_counterexample :
    chooseGenerator true (some "k") none = GeneratorChoice.remote
    ∧ GeneratorChoice.remote ≠ GeneratorChoice.localRule :=
  ⟨rfl, by decide⟩

/-- Claim C7 (amended): if the credential is absent, the remote path
is disabled and a generate action takes the local synthesis path,
regardless of the toggle and of the endpoint URL. -/
theorem C7_key_absent_forces_local (use_hf : Bool) (hf_api_url : Option String) :
    chooseGenerator use_hf none hf_api_url = GeneratorChoice.localRule := by
  cases use_hf <;> rfl

/-- Claim C8: the adapter never raises past its boundary — every
outcome is one of the three result shapes; a network-level failure
returns the failure result carrying the underlying message; and a
successfully extracted text that fails to parse is returned raw, not
as an error. -/
theorem C8_adapter_boundary (network : Except String PyVal)
    (jsonLoads : String → Option PyVal) (pyStr : PyVal → String) :
    ((∃ v, call_huggingface_for_itinerary network jsonLoads pyStr = HFResult.parsed v)
      ∨ (∃ v, call_huggingface_for_itinerary network jsonLoads pyStr = HFResult.raw v)
      ∨ (∃ m, call_huggingface_for_itinerary network jsonLoads pyStr = HFResult.failure m))
    ∧ (∀ e, network = Except.error e →
        call_huggingface_for_itinerary network jsonLoads pyStr = HFResult.failure e)
    ∧ (∀ (result : PyVal) (s : String), network = Except.ok result →
        extract_generated_text pyStr result = Except.ok (PyVal.str s) →
        jsonLoads s = none →
        call_huggingface_for_itinerary network jsonLoads pyStr
          = HFResult.raw (PyVal.str s)) := by
  refine ⟨?_, ?_, ?_⟩
  · cases network with
    | error e => exact Or.inr (Or.inr ⟨e, rfl⟩)
    | ok result =>
      cases hx : extract_generated_text pyStr result with
      | error e => exact Or.inr (Or.inr ⟨e, by simp [call_huggingface_for_itinerary, hx]⟩)
      | ok text =>
        cases text with
        | str s =>
          cases hj : jsonLoads s with
          | none =>
            exact Or.inr (Or.inl ⟨PyVal.str s,
              by simp [call_huggingface_for_itinerary, hx, hj]⟩)
          | some v => exact Or.inl ⟨v, by simp [call_huggingface_for_itinerary, hx, hj]⟩
        | list xs =>
          exact Or.inr (Or.inl ⟨PyVal.list xs, by simp [call_huggingface_for_itinerary, hx]⟩)
        | dict kvs =>
          exact Or.inr (Or.inl ⟨PyVal.dict kvs, by simp [call_huggingface_for_itinerary, hx]⟩)
        | num q =>
          exact Or.inr (Or.inl ⟨PyVal.num q, by simp [call_huggingface_for_itinerary, hx]⟩)
  · intro e he
    subst he
    rfl
  · intro result s hnet hext hj
    subst hnet
    simp [call_huggingface_for_itinerary, hext, hj]

/-- Witness for C8: a network failure surfaces as the failure result
with the underlying message. -/
theorem C8_adapter_boundary_witness :
    call_huggingface_for_itinerary (Except.error "timeout") (fun _ => none) (fun _ => "")
      = HFResult.failure "timeout" :=
  (C8_adapter_boundary (Except.error "timeout") (fun _ => none) (fun _ => "")).2.1 "timeout" rfl

/-- Claim C9: in day order, the concatenation of all scheduled
activities is an order-preserving subsequence of the input pool; in
particular no POI instance is placed twice and the number of
scheduled activities is at most the pool size. -/
theorem C9_schedule_subsequence (pois : List POI) (start_date : Int) (days : Nat)
    (h : 1 ≤ days) :
    (((pack pois start_date days).map DayPlan.activities).flatten).Sublist pois
    ∧ (((pack pois start_date days).map DayPlan.activities).flatten).length ≤ pois.length
    ∧ (∀ p : POI,
        (((pack pois start_date days).map DayPlan.activities).flatten).count p
          ≤ pois.count p) := by
  have hs := packFromAux_flatten_sublist days 0 pois start_date
  exact ⟨hs, hs.length_le, fun p => hs.count_le p⟩

/-- Witness for C9 at the concrete scenario pool. -/
theorem C9_schedule_subsequence_witness :
    (((pack pool4 0 1).map DayPlan.activities).flatten).length ≤ pool4.length :=
  (C9_schedule_subsequence pool4 0 1 (by decide)).2.1

/-- Claim C10: the `budget` argument has no effect on local synthesis:
two calls agreeing on the geocoding outcome, the random source, and
every other argument but differing arbitrarily in budget return
identical results. -/
theorem C10_budget_has_no_effect (geocoder : Except String (Option (ℚ × ℚ)))
    (draws : Nat → Draw) (destination : String) (start_date : Int) (days : Nat)
    (budget1 budget2 : Nat) (interests : List String) :
    generate_rule_based_itinerary geocoder draws destination start_date days budget1 interests
      = generate_rule_based_itinerary geocoder draws destination start_date days budget2
          interests := rfl

/-- A choice from a nonempty list is a member of it. -/
theorem pyChoice_mem {α : Type} (xs : List α) (d : α) (k : Nat) (h : xs ≠ []) :
    pyChoice xs d k ∈ xs := by
  have hlen : 0 < xs.length := List.length_pos.mpr h
  have hk : k % xs.length < xs.length := Nat.mod_lt k hlen
  rw [pyChoice, List.getD_eq_getElem xs d hk]
  exact List.getElem_mem hk

/-- The category vocabulary the sampler chooses from is never empty. -/
theorem sample_categories_ne_nil (interests : List String) :
    (if interests.isEmpty then defaultCategories else interests) ≠ [] := by
  by_cases hi : interests.isEmpty
  · simp [hi, defaultCategories]
  · simp only [if_neg hi]
    exact fun hnil => hi (by simp [hnil])

/-- The sampled POI at index `i < n`, component by component. -/
theorem sample_pois_getD (center : ℚ × ℚ) (interests : List String) (n : Nat)
    (draws : Nat → Draw) (i : Nat) (hi : i < n) :
    (sample_pois_for_city center interests n draws).getD i dPOI
      = { name := pyTitle (pyChoice (if interests.isEmpty then defaultCategories else interests)
              "" (draws i).catIdx) ++ " Spot " ++ toString (i + 1)
          lat := center.1 + ((draws i).r1 - 1/2) * (8/100)
          lon := center.2 + ((draws i).r2 - 1/2) * (8/100)
          category := pyChoice (if interests.isEmpty then defaultCategories else interests)
            "" (draws i).catIdx
          price := pyChoice priceLabels "" (draws i).priceIdx
          duration_hours := pyChoice durationChoices 0 (draws i).durIdx } := by
  have hlen : i < (sample_pois_for_city center interests n draws).length := by
    simpa [sample_pois_for_city] using hi
  rw [List.getD_eq_getElem _ dPOI hlen]
  simp [sample_pois_for_city]

/-- Claim C5 (amended): the sampler returns exactly `n` POIs; each has
its category drawn from `interests` (or the default 5-tag vocabulary
when `interests` is empty), latitude and longitude within the
half-open jitter interval [-0.04, +0.04) of the corresponding center
coordinate, price tier in {free, low, medium} and duration in
{0.5, 1, 1.5, 2, 3}; and the POI at 0-based index `i` is named
"{Category} Spot {i+1}" — title-cased category, one space before
"Spot". -/
theorem C5_sampler_shape (center : ℚ × ℚ) (interests : List String) (n : Nat)
    (draws : Nat → Draw)
    (hr : ∀ i, 0 ≤ (draws i).r1 ∧ (draws i).r1 < 1 ∧ 0 ≤ (draws i).r2 ∧ (draws i).r2 < 1) :
    (sample_pois_for_city center interests n draws).length = n
    ∧ (∀ p ∈ sample_pois_for_city center interests n draws,
        p.category ∈ (if interests.isEmpty then defaultCategories else interests)
        ∧ center.1 - 4/100 ≤ p.lat ∧ p.lat < center.1 + 4/100
        ∧ center.2 - 4/100 ≤ p.lon ∧ p.lon < center.2 + 4/100
        ∧ p.price ∈ priceLabels
        ∧ p.duration_hours ∈ durationChoices)
    ∧ (∀ i, i < n →
        ((sample_pois_for_city center interests n draws).getD i dPOI).name
          = pyTitle ((sample_pois_for_city center interests n draws).getD i dPOI).category
              ++ " Spot " ++ toString (i + 1)) := by
  refine ⟨by simp [sample_pois_for_city], ?_, ?_⟩
  · intro p hp
    simp only [sample_pois_for_city, List.mem_map, List.mem_range] at hp
    obtain ⟨i, hi, hpi⟩ := hp
    obtain ⟨hr1a, hr1b, hr2a, hr2b⟩ := hr i
    subst hpi
    refine ⟨pyChoice_mem _ "" _ (sample_categories_ne_nil interests), ?_, ?_, ?_, ?_,
      pyChoice_mem _ "" _ (by decide), pyChoice_mem _ 0 _ (by decide)⟩
    · show center.1 - 4/100 ≤ center.1 + ((draws i).r1 - 1/2) * (8/100)
      nlinarith
    · show center.1 + ((draws i).r1 - 1/2) * (8/100) < center.1 + 4/100
      nlinarith
    · show center.2 - 4/100 ≤ center.2 + ((draws i).r2 - 1/2) * (8/100)
      nlinarith
    · show center.2 + ((draws i).r2 - 1/2) * (8/100) < center.2 + 4/100
      nlinarith
  · intro i hi
    rw [sample_pois_getD center interests n draws i hi]

/-- Witness for C5 at a concrete call: four POIs are produced. -/
theorem C5_sampler_shape_witness :
    (sample_pois_for_city (1297/100, 7759/100) ["cafe"] 4 (fun _ => ⟨0, 0, 0, 0, 0⟩)).length
      = 4 :=
  (C5_sampler_shape (1297/100, 7759/100) ["cafe"] 4 (fun _ => ⟨0, 0, 0, 0, 0⟩)
    (fun _ => by norm_num)).1

/-- Claim C5 counterexample: the claim's name template
"{Category}  Spot {i+1}" has two spaces between the title-cased
category and "Spot", but the code produces a single space: the sole
POI sampled here is named "Cafe Spot 1", not "Cafe  Spot 1". -/
theorem C5_name_single_space_counterexample :
    (sample_pois_for_city (0, 0) ["cafe"] 1 (fun _ => ⟨0, 0, 0, 0, 0⟩)).map POI.name
      = ["Cafe Spot 1"]
    ∧ "Cafe Spot 1" ≠ "Cafe  Spot 1" := by
  exact ⟨by decide, by decide⟩

/-- Claim C1: a POI whose duration exceeds the remaining hours of the
current day at the moment the shared cursor reaches it is consumed
without being placed: as a position-tagged instance it appears in no
day's schedule, is consumed exactly once (never revisited on a later
day), lies inside the pool, and still contributes its price-table
value to the budget estimate computed over the full pool; and in the
concrete scenario of a 4-POI pool of durations [3,3,3,3] with
days = 1, exactly 2 POIs are scheduled (6 hours used) and 2 are
dropped. -/
theorem C1_dropped_poi_consumed :
    (∀ (pois : List POI) (days : Nat) (start_date : Int) (x : Nat × POI),
        1 ≤ days → x ∈ droppedPairs pois days →
          x ∉ scheduledPairs pois days
          ∧ (droppedPairs pois days).count x = 1
          ∧ (pack pois start_date days).map DayPlan.activities
              = (packFromRec days pois.enum).map (fun r => r.1.map Prod.snd)
          ∧ x.1 < pois.length
          ∧ pois.getD x.1 dPOI = x.2
          ∧ simple_budget_estimate pois
              = simple_budget_estimate (pois.take x.1) + cost_map x.2.price
                + simple_budget_estimate (pois.drop (x.1 + 1)))
    ∧ (pack pool4 0 1).map (fun dp => dp.activities.length) = [2]
    ∧ (pack pool4 0 1).map (fun dp => (dp.activities.map POI.duration_hours).sum) = [6]
    ∧ (droppedPairs pool4 1).length = 2 := by
  refine ⟨?_, ?_, ?_, ?_⟩
  · intro pois days start_date x hdays hx
    have hcount := packFromRec_count x days pois.enum
    have hdpos : 0 < (droppedPairs pois days).count x := List.count_pos_iff.mpr hx
    have henum1 : pois.enum.count x ≤ 1 := by
      rw [List.enum_eq_enumFrom]
      exact enumFrom_count_le_one pois 0 x
    simp only [droppedPairs] at hdpos
    have hs0 : (((packFromRec days pois.enum).map Prod.fst).flatten).count x = 0 := by omega
    have hd1 : ((((packFromRec days pois.enum).map (fun r => r.2)).flatten)).count x = 1 := by
      omega
    have hmem_enum : x ∈ pois.enum := List.count_pos_iff.mp (by omega)
    obtain ⟨-, hlt, hget⟩ :=
      mem_enumFrom_spec pois 0 x (by simpa [List.enum_eq_enumFrom] using hmem_enum)
    rw [Nat.sub_zero] at hlt hget
    have hagree : (pack pois start_date days).map DayPlan.activities
        = (packFromRec days pois.enum).map (fun r => r.1.map Prod.snd) := by
      have ha := packFromRec_agree days pois.enum start_date 0
      rw [List.enum_eq_enumFrom, List.enumFrom_map_snd 0 pois] at ha
      simpa only [pack, List.enum_eq_enumFrom] using ha
    refine ⟨?_, ?_, hagree, hlt, hget, ?_⟩
    · simp only [scheduledPairs]
      exact List.count_eq_zero.mp hs0
    · simp only [droppedPairs]
      exact hd1
    · have := estimate_split pois x.1 hlt
      rwa [hget] at this
  · norm_num [pack, packFromAux, packDayAux, pool4, poi3]
  · norm_num [pack, packFromAux, packDayAux, pool4, poi3]
  · norm_num [droppedPairs, packFromRec, packDayRec, pool4, poi3,
      List.enum_eq_enumFrom, List.enumFrom]

/-- Witness for C1: in the scenario pool, the position-2 POI is
dropped on day 1 (its 3 hours exceed the remaining 2), is consumed
exactly once, and is scheduled nowhere. -/
theorem C1_dropped_poi_consumed_witness :
    (2, poi3) ∉ scheduledPairs pool4 1 ∧ (droppedPairs pool4 1).count (2, poi3) = 1 :=
  ⟨(C1_dropped_poi_consumed.1 pool4 1 0 (2, poi3) (by decide) (by
      norm_num [droppedPairs, packFromRec, packDayRec, pool4, poi3,
        List.enum_eq_enumFrom, List.enumFrom])).1,
    (C1_dropped_poi_consumed.1 pool4 1 0 (2, poi3) (by decide) (by
      norm_num [droppedPairs, packFromRec, packDayRec, pool4, poi3,
        List.enum_eq_enumFrom, List.enumFrom])).2.1⟩

end TravelPlanner
